import Mathlib

/-!
Verification of the gesture-controlled particle system's signal-conditioning
pipeline: the critically-damped spring smoother (`SmoothValue`), the
exponential moving-average filter (`EMAFilter`), the hand-tracking lifecycle
(`HandTrackingState`), the pure gesture classifiers (`GestureDetection`), and
the per-frame / per-tick orchestration (`ParticleController`).

Scalars are modelled as rationals (`ℚ`).  The JavaScript source reads the
wall clock (`Date.now()`) inside its methods; here every such method takes
the current time `now : ℚ` as an explicit argument.  `Math.sqrt` is modelled
by `ratSqrt`, a computable rational square root that is exact on perfect
rational squares (every concrete input appearing in a verified scenario is
one).  `Math.atan2` and `Math.sin` are transcendental and cannot be computed
in `ℚ`; the definitions that use them take the function as an explicit
parameter, so every theorem below holds for the true functions in particular
(theorems that need a property of them, such as `|sin| ≤ 1`, assume exactly
that property).
-/

/-- One tracked 3D point, in normalized detector coordinates. -/
structure Landmark where
  x : ℚ
  y : ℚ
  z : ℚ
deriving DecidableEq

/-- A hand: 21 landmarks with fixed anatomical indices (wrist = 0, thumb
tip = 4, fingertips 8/12/16/20, MCPs 5/9/13/17), modelled as a total map
from indices; the pipeline only ever reads indices 0–20. -/
abbrev Hand := ℕ → Landmark

/-- Largest `j ≤ k` with `j * j ≤ n` (0 when there is none), by structural
recursion so that the kernel can evaluate it. -/
def natSqrtAux (n : ℕ) : ℕ → ℕ
  | 0 => 0
  | k + 1 => if (k + 1) * (k + 1) ≤ n then k + 1 else natSqrtAux n k

/-- Integer square root `⌊√n⌋`, kernel-computable. -/
def natSqrt (n : ℕ) : ℕ :=
  natSqrtAux n n

/-- Computable model of `Math.sqrt` on rationals: componentwise integer
square root on the numerator and denominator.  For `q ≥ 0` a perfect
rational square (the only inputs whose value any claim depends on) this is
the exact square root; the classifiers below otherwise use it only as a
gate whose exact value no verified statement depends on. -/
def ratSqrt (q : ℚ) : ℚ :=
  (natSqrt q.num.toNat : ℚ) / (natSqrt q.den : ℚ)

/-- Smooth value interpolation using a critically damped spring
(`js/smoothing.js`, class `SmoothValue`). -/
structure SmoothValue where
  current : ℚ
  target : ℚ
  velocity : ℚ
  smoothingFactor : ℚ
  deadZone : ℚ
  lastValidTarget : ℚ
deriving DecidableEq

/-- `SmoothValue` constructor: `new SmoothValue(initialValue, smoothingFactor, deadZone)`. -/
def SmoothValue.init (initialValue smoothingFactor deadZone : ℚ) : SmoothValue :=
  { current := initialValue
    target := initialValue
    velocity := 0
    smoothingFactor := smoothingFactor
    deadZone := deadZone
    lastValidTarget := initialValue }

/-- `setTarget(value)`: dead zone applied to prevent micro-jitter; the target
(and the dead-zone reference `lastValidTarget`) move only when the new value
is farther than `deadZone` from the last accepted target. -/
def SmoothValue.setTarget (s : SmoothValue) (value : ℚ) : SmoothValue :=
  if |value - s.lastValidTarget| > s.deadZone then
    { s with target := value, lastValidTarget := value }
  else
    s

/-- `update()`: one tick of critically damped spring interpolation; returns
the new `current` together with the updated state. -/
def SmoothValue.update (s : SmoothValue) : ℚ × SmoothValue :=
  let diff := s.target - s.current
  let velocity := (s.velocity + diff * s.smoothingFactor) * 0.7
  let current := s.current + velocity
  (current, { s with velocity := velocity, current := current })

/-- `updateSlow(defaultValue)`: slower spring constants for returning to a
default; unconditionally overwrites `target` with the default. -/
def SmoothValue.updateSlow (s : SmoothValue) (defaultValue : ℚ) : ℚ × SmoothValue :=
  let diff := defaultValue - s.current
  let velocity := (s.velocity + diff * 0.02) * 0.85
  let current := s.current + velocity
  (current, { s with velocity := velocity, current := current, target := defaultValue })

/-- Exponential moving-average filter for raw input
(`js/smoothing.js`, class `EMAFilter`); `value = none` is the JavaScript
`null`, the uninitialized state. -/
structure EMAFilter where
  alpha : ℚ
  value : Option ℚ
deriving DecidableEq

/-- `filter(newValue)`: first sample after construction or `reset()` seeds the
estimate verbatim; later samples are blended `α·new + (1−α)·old`.  Returns
the stored (and returned) value together with the updated filter. -/
def EMAFilter.filter (f : EMAFilter) (newValue : ℚ) : ℚ × EMAFilter :=
  match f.value with
  | none => (newValue, { f with value := some newValue })
  | some v =>
      let blended := f.alpha * newValue + (1 - f.alpha) * v
      (blended, { f with value := some blended })

/-- `reset()`: clears the estimate back to uninitialized. -/
def EMAFilter.reset (f : EMAFilter) : EMAFilter :=
  { f with value := none }

/-- Hand tracking state manager (`js/hand-tracking.js`). -/
structure HandTrackingState where
  isTracking : Bool
  lastSeenTime : ℚ
  gracePeriod : ℚ
  transitioningOut : Bool
deriving DecidableEq

/-- The record `{ status, timeSinceLost }` returned by `updateTracking`. -/
structure TrackingResult where
  status : String
  timeSinceLost : ℚ
deriving DecidableEq

/-- `updateTracking(handsDetected)`; the JavaScript reads `Date.now()`, here
passed as `now`.  Returns the result record with the updated state. -/
def HandTrackingState.updateTracking (st : HandTrackingState) (handsDetected : Bool)
    (now : ℚ) : TrackingResult × HandTrackingState :=
  if handsDetected then
    (⟨"tracking", 0⟩,
     { st with isTracking := true, lastSeenTime := now, transitioningOut := false })
  else
    let timeSinceLost := now - st.lastSeenTime
    if timeSinceLost < st.gracePeriod then
      (⟨"grace", timeSinceLost⟩, { st with transitioningOut := true })
    else
      (⟨"lost", timeSinceLost⟩,
       { st with isTracking := false, transitioningOut := false })

namespace GestureDetection

/-- Result record of `getHandOrientation`. -/
structure Orientation where
  tiltX : ℚ
  tiltY : ℚ
  palmVector : Landmark

/-- `getHandOrientation(landmarks)`: palm vector from wrist (0) to middle
MCP (9); tilt angles via `atan2`, passed explicitly since it is
transcendental. -/
def getHandOrientation (atan2 : ℚ → ℚ → ℚ) (landmarks : Hand) : Orientation :=
  let wrist := landmarks 0
  let middleMCP := landmarks 9
  let palmVector : Landmark :=
    ⟨middleMCP.x - wrist.x, middleMCP.y - wrist.y, middleMCP.z - wrist.z⟩
  let tiltX := atan2 palmVector.y
    (ratSqrt (palmVector.x * palmVector.x + palmVector.z * palmVector.z))
  let tiltY := atan2 palmVector.x (|palmVector.z| + 0.001)
  { tiltX := tiltX, tiltY := tiltY, palmVector := palmVector }

/-- One iteration of the `isFist` loop: a finger counts as closed when its
tip's planar distance to the wrist is below 1.15 times its MCP's. -/
def fingerClosed (landmarks : Hand) (tipIdx mcpIdx : ℕ) : Bool :=
  let wrist := landmarks 0
  let tip := landmarks tipIdx
  let mcp := landmarks mcpIdx
  let tipDist := ratSqrt ((tip.x - wrist.x) * (tip.x - wrist.x) +
    (tip.y - wrist.y) * (tip.y - wrist.y))
  let mcpDist := ratSqrt ((mcp.x - wrist.x) * (mcp.x - wrist.x) +
    (mcp.y - wrist.y) * (mcp.y - wrist.y))
  tipDist < mcpDist * 1.15

/-- `isFist(landmarks)`: at least 3 of the 4 non-thumb fingers
(tips 8/12/16/20 against MCPs 5/9/13/17) closed. -/
def isFist (landmarks : Hand) : Bool :=
  let pairs : List (ℕ × ℕ) := [(8, 5), (12, 9), (16, 13), (20, 17)]
  let closedFingers := (pairs.filter (fun p => fingerClosed landmarks p.1 p.2)).length
  decide (3 ≤ closedFingers)

/-- Result record of `getTwoHandRotation`. -/
structure TwoHandRotation where
  yRotation : ℚ
  xRotation : ℚ
deriving DecidableEq

/-- `getTwoHandRotation(hand1, hand2)`: steering angle between the wrists
and average wrist height mapped from [0,1] to [-1,1]. -/
def getTwoHandRotation (atan2 : ℚ → ℚ → ℚ) (hand1 hand2 : Hand) : TwoHandRotation :=
  let wrist1 := hand1 0
  let wrist2 := hand2 0
  let angle := atan2 (wrist2.y - wrist1.y) (wrist2.x - wrist1.x)
  let avgY := (wrist1.y + wrist2.y) / 2
  { yRotation := angle, xRotation := (avgY - 0.5) * 2 }

/-- `getPinchDistance(landmarks)`: planar distance between thumb tip (4) and
index tip (8). -/
def getPinchDistance (landmarks : Hand) : ℚ :=
  let indexTip := landmarks 8
  let thumbTip := landmarks 4
  ratSqrt ((indexTip.x - thumbTip.x) * (indexTip.x - thumbTip.x) +
    (indexTip.y - thumbTip.y) * (indexTip.y - thumbTip.y))

/-- `getTwoHandDistance(hand1, hand2)`: planar distance between the two
wrists (landmark 0). -/
def getTwoHandDistance (hand1 hand2 : Hand) : ℚ :=
  let palm1 := hand1 0
  let palm2 := hand2 0
  ratSqrt ((palm1.x - palm2.x) * (palm1.x - palm2.x) +
    (palm1.y - palm2.y) * (palm1.y - palm2.y))

end GestureDetection

/-- The configuration constants the controller reads
(`js/config.js`, the `smoothing`, `hand` and `autoRotate` sections of `CONFIG`). -/
structure Config where
  scaleFactor : ℚ
  scaleDeadZone : ℚ
  rotationFactor : ℚ
  rotationDeadZone : ℚ
  emaAlphaScale : ℚ
  emaAlphaRotation : ℚ
  emaAlphaPinch : ℚ
  gracePeriod : ℚ
  autoRotateSpeed : ℚ
  oscAmplitude : ℚ
  oscFrequency : ℚ
deriving DecidableEq

/-- The literal values of `CONFIG` in `js/config.js`. -/
def CONFIG : Config :=
  { scaleFactor := 0.12
    scaleDeadZone := 0.02
    rotationFactor := 0.08
    rotationDeadZone := 0.01
    emaAlphaScale := 0.4
    emaAlphaRotation := 0.3
    emaAlphaPinch := 0.5
    gracePeriod := 500
    autoRotateSpeed := 0.003
    oscAmplitude := 0.08
    oscFrequency := 0.3 }

/-- The gesture-pipeline state of `ParticleController`
(`js/particle-controller.js`).  Rendering, UI and camera collaborators are
out of scope; only the fields the signal pipeline reads or writes are kept. -/
structure ParticleController where
  config : Config
  gestureMode : String
  autoRotate : Bool
  baseRotationY : ℚ
  smoothScale : SmoothValue
  smoothRotationX : SmoothValue
  smoothRotationY : SmoothValue
  scaleFilter : EMAFilter
  rotXFilter : EMAFilter
  rotYFilter : EMAFilter
  pinchFilter : EMAFilter
  handState : HandTrackingState
deriving DecidableEq

namespace ParticleController

/-- The controller constructor together with `initializeSmoothing()`:
mode `both`, auto-rotate on, springs at their initial values, filters
uninitialized, tracking state fresh with the configured grace period. -/
def init (config : Config) : ParticleController :=
  { config := config
    gestureMode := "both"
    autoRotate := true
    baseRotationY := 0
    smoothScale := SmoothValue.init 1 config.scaleFactor config.scaleDeadZone
    smoothRotationX := SmoothValue.init 0 config.rotationFactor config.rotationDeadZone
    smoothRotationY := SmoothValue.init 0 config.rotationFactor config.rotationDeadZone
    scaleFilter := ⟨config.emaAlphaScale, none⟩
    rotXFilter := ⟨config.emaAlphaRotation, none⟩
    rotYFilter := ⟨config.emaAlphaRotation, none⟩
    pinchFilter := ⟨config.emaAlphaPinch, none⟩
    handState := ⟨false, 0, config.gracePeriod, false⟩ }

/-- `processTwoHandGestures(hand1, hand2)`: two-hand distance drives the scale
spring (modes `scale`/`both`); the steering gesture drives both rotation
springs and disables auto-rotate (modes `rotate`/`both`).  UI status output
is out of scope. -/
def processTwoHandGestures (atan2 : ℚ → ℚ → ℚ) (st : ParticleController)
    (hand1 hand2 : Hand) : ParticleController :=
  let st1 :=
    if st.gestureMode = "scale" ∨ st.gestureMode = "both" then
      let distance := GestureDetection.getTwoHandDistance hand1 hand2
      let f := st.scaleFilter.filter distance
      let scale := 0.3 + f.1 * 3.5
      let scale := min (max scale 0.2) 2.8
      { st with scaleFilter := f.2, smoothScale := st.smoothScale.setTarget scale }
    else st
  if st1.gestureMode = "rotate" ∨ st1.gestureMode = "both" then
    let rot := GestureDetection.getTwoHandRotation atan2 hand1 hand2
    let fy := st1.rotYFilter.filter (rot.yRotation * 2)
    let fx := st1.rotXFilter.filter (rot.xRotation * 0.8)
    { st1 with
      rotYFilter := fy.2
      rotXFilter := fx.2
      smoothRotationY := st1.smoothRotationY.setTarget fy.1
      smoothRotationX := st1.smoothRotationX.setTarget fx.1
      autoRotate := false }
  else st1

/-- `processSingleHandGestures(hand)`: a fist locks rotation (early return,
auto-rotate off, nothing else touched); otherwise pinch distance drives the
scale spring (modes `scale`/`both`) and hand tilt drives the rotation springs
and disables auto-rotate (modes `rotate`/`both`). -/
def processSingleHandGestures (atan2 : ℚ → ℚ → ℚ) (st : ParticleController)
    (hand : Hand) : ParticleController :=
  if GestureDetection.isFist hand then
    { st with autoRotate := false }
  else
    let st1 :=
      if st.gestureMode = "scale" ∨ st.gestureMode = "both" then
        let pinch := GestureDetection.getPinchDistance hand
        let f := st.pinchFilter.filter pinch
        let scale := 0.3 + f.1 * 8
        let scale := min (max scale 0.2) 2.5
        { st with pinchFilter := f.2, smoothScale := st.smoothScale.setTarget scale }
      else st
    if st1.gestureMode = "rotate" ∨ st1.gestureMode = "both" then
      let orientation := GestureDetection.getHandOrientation atan2 hand
      let fx := st1.rotXFilter.filter (orientation.tiltX * 1.2)
      let fy := st1.rotYFilter.filter (orientation.tiltY * 0.8)
      { st1 with
        rotXFilter := fx.2
        rotYFilter := fy.2
        smoothRotationX := st1.smoothRotationX.setTarget fx.1
        smoothRotationY := st1.smoothRotationY.setTarget fy.1
        autoRotate := false }
    else st1

/-- `processGestures(hands)`: two or more hands go to the two-hand path
(first two only), one hand to the single-hand path.  The caller only invokes
this with at least one hand (tracking status `tracking`); the empty case is
unreachable and left as the identity. -/
def processGestures (atan2 : ℚ → ℚ → ℚ) (st : ParticleController)
    (hands : List Hand) : ParticleController :=
  match hands with
  | hand1 :: hand2 :: _ => processTwoHandGestures atan2 st hand1 hand2
  | [hand] => processSingleHandGestures atan2 st hand
  | [] => st

/-- `handleNoHands(timeSinceLost)`: past `gracePeriod + 500` every EMA filter
is reset; auto-rotate is re-enabled in all cases. -/
def handleNoHands (st : ParticleController) (timeSinceLost : ℚ) : ParticleController :=
  let st1 :=
    if timeSinceLost > st.config.gracePeriod + 500 then
      { st with
        scaleFilter := st.scaleFilter.reset
        rotXFilter := st.rotXFilter.reset
        rotYFilter := st.rotYFilter.reset
        pinchFilter := st.pinchFilter.reset }
    else st
  { st1 with autoRotate := true }

/-- `onHandsResults(results)` restricted to the gesture pipeline: update the
tracking lifecycle with hand presence, then dispatch on the status
(`tracking` processes gestures, `lost` handles absence, `grace` is a
pass-through). -/
def onHandsResults (atan2 : ℚ → ℚ → ℚ) (st : ParticleController)
    (hands : List Hand) (now : ℚ) : ParticleController :=
  let r := st.handState.updateTracking (decide (0 < hands.length)) now
  let st1 := { st with handState := r.2 }
  if r.1.status = "tracking" then
    processGestures atan2 st1 hands
  else if r.1.status = "lost" then
    handleNoHands st1 r.1.timeSinceLost
  else st1

/-- One `animate()` tick restricted to the gesture pipeline: re-evaluate
tracking with no new detection, advance the springs (`update` while
tracking or in grace; otherwise slow return of scale to 1 and either the
free-running auto-rotation writing the rotation targets directly, or the
slow return of the rotation springs).  Returns the updated controller with
the emitted `(scale, rotationX, rotationY)`.  `Math.sin` and `Date.now()`
are passed explicitly as `sin` and `now`. -/
def animate (sin : ℚ → ℚ) (st : ParticleController) (now : ℚ) :
    ParticleController × (ℚ × ℚ × ℚ) :=
  let r := st.handState.updateTracking false now
  let st1 := { st with handState := r.2 }
  if r.1.status = "tracking" ∨ r.1.status = "grace" then
    let us := st1.smoothScale.update
    let ux := st1.smoothRotationX.update
    let uy := st1.smoothRotationY.update
    ({ st1 with smoothScale := us.2, smoothRotationX := ux.2, smoothRotationY := uy.2 },
     (us.1, ux.1, uy.1))
  else
    let us := st1.smoothScale.updateSlow 1
    if st1.autoRotate then
      let base := st1.baseRotationY + st1.config.autoRotateSpeed
      let time := now * 0.001
      let sy := { st1.smoothRotationY with target := base }
      let sx := { st1.smoothRotationX with
                  target := sin (time * st1.config.oscFrequency) * st1.config.oscAmplitude }
      let ux := sx.update
      let uy := sy.update
      ({ st1 with
         baseRotationY := base
         smoothScale := us.2
         smoothRotationX := ux.2
         smoothRotationY := uy.2 },
       (us.1, ux.1, uy.1))
    else
      let ux := st1.smoothRotationX.updateSlow 0
      let uy := st1.smoothRotationY.updateSlow st1.baseRotationY
      ({ st1 with smoothScale := us.2, smoothRotationX := ux.2, smoothRotationY := uy.2 },
       (us.1, ux.1, uy.1))

/-- Iterated `animate` ticks at the given times: `animateIter sin times st n`
is the controller after the first `n` ticks. -/
def animateIter (sin : ℚ → ℚ) (times : ℕ → ℚ) (st : ParticleController) :
    ℕ → ParticleController
  | 0 => st
  | n + 1 => (animate sin (animateIter sin times st n) (times n)).1

end ParticleController

/-! ## Claim C1: dead-zone hysteresis of the spring smoother -/

/-- C1: `setTarget(v)` updates both `target` and `lastValidTarget` to `v` when
`|v − lastValidTarget| > deadZone` and leaves the state unchanged otherwise;
in particular, after an accepted `setTarget(t0)`, `setTarget(t0 + d/2)` leaves
the target at `t0` while `setTarget(t0 + 2d)` updates it to `t0 + 2d`. -/
theorem c1_dead_zone_hysteresis (s : SmoothValue) (v : ℚ) (hd : 0 < s.deadZone) :
    (|v - s.lastValidTarget| > s.deadZone →
      s.setTarget v = { s with target := v, lastValidTarget := v }) ∧
    (¬ |v - s.lastValidTarget| > s.deadZone → s.setTarget v = s) ∧
    (|v - s.lastValidTarget| > s.deadZone →
      ((s.setTarget v).setTarget (v + s.deadZone / 2)).target = v ∧
      ((s.setTarget v).setTarget (v + 2 * s.deadZone)).target = v + 2 * s.deadZone) := by
  refine ⟨fun h => ?_, fun h => ?_, fun h => ?_⟩
  · simp [SmoothValue.setTarget, h]
  · simp [SmoothValue.setTarget, h]
  · have e1 : s.setTarget v = { s with target := v, lastValidTarget := v } := by
      simp [SmoothValue.setTarget, h]
    rw [e1]
    constructor
    · have hrej : ¬ |v + s.deadZone / 2 - v| > s.deadZone := by
        rw [add_sub_cancel_left, abs_of_nonneg (by linarith)]
        linarith
      simp only [SmoothValue.setTarget]
      rw [if_neg hrej]
    · have hacc : |v + 2 * s.deadZone - v| > s.deadZone := by
        rw [add_sub_cancel_left, abs_of_nonneg (by linarith)]
        linarith
      simp only [SmoothValue.setTarget]
      rw [if_pos hacc]

/-- C1 witness: with dead zone 1/50 and last accepted target 1, the accepted
target 2 sticks, 2 + (1/50)/2 is rejected, 2 + 2·(1/50) is accepted. -/
theorem c1_dead_zone_hysteresis_witness :
    ((SmoothValue.init 1 (12/100) (1/50)).setTarget 2).target = 2 ∧
    (((SmoothValue.init 1 (12/100) (1/50)).setTarget 2).setTarget
        (2 + (SmoothValue.init 1 (12/100) (1/50)).deadZone / 2)).target = 2 ∧
    (((SmoothValue.init 1 (12/100) (1/50)).setTarget 2).setTarget
        (2 + 2 * (SmoothValue.init 1 (12/100) (1/50)).deadZone)).target
      = 2 + 2 * (SmoothValue.init 1 (12/100) (1/50)).deadZone := by
  have h := c1_dead_zone_hysteresis (SmoothValue.init 1 (12/100) (1/50)) 2
    (by norm_num [SmoothValue.init])
  have hacc : |(2 : ℚ) - (SmoothValue.init 1 (12/100) (1/50)).lastValidTarget| >
      (SmoothValue.init 1 (12/100) (1/50)).deadZone := by
    show |(2 : ℚ) - 1| > (1/50 : ℚ)
    rw [abs_of_nonneg (by norm_num : (0:ℚ) ≤ 2 - 1)]
    norm_num
  refine ⟨?_, (h.2.2 hacc).1, (h.2.2 hacc).2⟩
  · rw [h.1 hacc]

/-! ## Claim C2: which operations may move `target` / `lastValidTarget` -/

/-- C2 counterexample: `updateSlow` overwrites `target` even though the
supplied value (11/2, against last accepted target 5 with dead zone 1) does
not pass the dead-zone test, so the claim that `target` changes only on a
passed dead-zone test is false. -/
theorem c2_mutation_invariant_counterexample :
    ¬ (|(11/2 : ℚ) - (⟨0, 5, 0, 12/100, 1, 5⟩ : SmoothValue).lastValidTarget| >
        (⟨0, 5, 0, 12/100, 1, 5⟩ : SmoothValue).deadZone) ∧
    ((⟨0, 5, 0, 12/100, 1, 5⟩ : SmoothValue).updateSlow (11/2)).2.target ≠
      (⟨0, 5, 0, 12/100, 1, 5⟩ : SmoothValue).target := by
  constructor
  · show ¬ |(11/2 : ℚ) - 5| > (1 : ℚ)
    rw [not_lt, show (11/2 : ℚ) - 5 = 1/2 by norm_num,
      abs_of_nonneg (by norm_num : (0:ℚ) ≤ 1/2)]
    norm_num
  · norm_num [SmoothValue.updateSlow]

/-- Helper: one `animate` tick never moves any spring's `lastValidTarget`,
and it preserves `autoRotate`, the configuration and the tracking clock. -/
theorem animate_preserves_refs (sin : ℚ → ℚ) (c : ParticleController) (now : ℚ) :
    (ParticleController.animate sin c now).1.autoRotate = c.autoRotate ∧
    (ParticleController.animate sin c now).1.config = c.config ∧
    (ParticleController.animate sin c now).1.handState.lastSeenTime = c.handState.lastSeenTime ∧
    (ParticleController.animate sin c now).1.handState.gracePeriod = c.handState.gracePeriod ∧
    (ParticleController.animate sin c now).1.smoothScale.lastValidTarget
        = c.smoothScale.lastValidTarget ∧
    (ParticleController.animate sin c now).1.smoothRotationX.lastValidTarget
        = c.smoothRotationX.lastValidTarget ∧
    (ParticleController.animate sin c now).1.smoothRotationY.lastValidTarget
        = c.smoothRotationY.lastValidTarget := by
  by_cases hlt : now - c.handState.lastSeenTime < c.handState.gracePeriod
  · simp [ParticleController.animate, HandTrackingState.updateTracking, hlt,
      SmoothValue.update, SmoothValue.updateSlow]
  · by_cases hauto : c.autoRotate
    · simp [ParticleController.animate, HandTrackingState.updateTracking, hlt, hauto,
        SmoothValue.update, SmoothValue.updateSlow]
    · simp [ParticleController.animate, HandTrackingState.updateTracking, hlt, hauto,
        SmoothValue.update, SmoothValue.updateSlow]

/-- C2 amended: `setTarget` moves `target`/`lastValidTarget` exactly when the
dead-zone test passes; `update` mutates only `current` and `velocity`;
`updateSlow` additionally overwrites `target` with the fallback
unconditionally (leaving `lastValidTarget` alone); and the per-tick path
(including the auto-rotate direct target writes) never moves any spring's
`lastValidTarget`. -/
theorem c2_mutation_invariant_amended (s : SmoothValue) (v fallback : ℚ)
    (sin : ℚ → ℚ) (c : ParticleController) (now : ℚ) :
    (|v - s.lastValidTarget| > s.deadZone →
      s.setTarget v = { s with target := v, lastValidTarget := v }) ∧
    (¬ |v - s.lastValidTarget| > s.deadZone → s.setTarget v = s) ∧
    ((s.update.2.target = s.target ∧ s.update.2.lastValidTarget = s.lastValidTarget) ∧
     s.update.2.smoothingFactor = s.smoothingFactor ∧ s.update.2.deadZone = s.deadZone) ∧
    ((s.updateSlow fallback).2.target = fallback ∧
     (s.updateSlow fallback).2.lastValidTarget = s.lastValidTarget) ∧
    ((ParticleController.animate sin c now).1.smoothScale.lastValidTarget
        = c.smoothScale.lastValidTarget ∧
     (ParticleController.animate sin c now).1.smoothRotationX.lastValidTarget
        = c.smoothRotationX.lastValidTarget ∧
     (ParticleController.animate sin c now).1.smoothRotationY.lastValidTarget
        = c.smoothRotationY.lastValidTarget) := by
  refine ⟨fun h => ?_, fun h => ?_, ?_, ?_, ?_⟩
  · simp [SmoothValue.setTarget, h]
  · simp [SmoothValue.setTarget, h]
  · simp [SmoothValue.update]
  · simp [SmoothValue.updateSlow]
  · have h := animate_preserves_refs sin c now
    exact ⟨h.2.2.2.2.1, h.2.2.2.2.2.1, h.2.2.2.2.2.2⟩

/-- C2 witness: at a concrete spring state, a rejected `setTarget` is a no-op
while `update` keeps `target` and `lastValidTarget` in place. -/
theorem c2_mutation_invariant_amended_witness :
    (⟨0, 5, 0, 12/100, 1, 5⟩ : SmoothValue).setTarget (11/2) = ⟨0, 5, 0, 12/100, 1, 5⟩ ∧
    (⟨0, 5, 0, 12/100, 1, 5⟩ : SmoothValue).update.2.target = 5 := by
  have h := c2_mutation_invariant_amended (⟨0, 5, 0, 12/100, 1, 5⟩ : SmoothValue)
    (11/2) 1 (fun _ => 0) (ParticleController.init CONFIG) 0
  have hside : ¬ |(11/2 : ℚ) - (⟨0, 5, 0, 12/100, 1, 5⟩ : SmoothValue).lastValidTarget| >
      (⟨0, 5, 0, 12/100, 1, 5⟩ : SmoothValue).deadZone := by
    show ¬ |(11/2 : ℚ) - 5| > (1 : ℚ)
    rw [not_lt, show (11/2 : ℚ) - 5 = 1/2 by norm_num,
      abs_of_nonneg (by norm_num : (0:ℚ) ≤ 1/2)]
    norm_num
  refine ⟨h.2.1 hside, h.2.2.1.1.1⟩

/-! ## Claim C3: exponential filter contract -/

/-- C3: the first `filter(sample)` after construction or `reset()` returns
and stores the sample verbatim; a later call blends
`α·sample + (1−α)·previous` and stores the blend; `reset()` clears the
estimate so the next sample re-seeds unconditionally. -/
theorem c3_ema_filter_contract (f : EMAFilter) (sample e : ℚ) :
    (f.value = none → f.filter sample = (sample, ⟨f.alpha, some sample⟩)) ∧
    (f.value = some e →
      f.filter sample = (f.alpha * sample + (1 - f.alpha) * e,
        ⟨f.alpha, some (f.alpha * sample + (1 - f.alpha) * e)⟩)) ∧
    (f.reset.value = none ∧
     f.reset.filter sample = (sample, ⟨f.alpha, some sample⟩)) := by
  refine ⟨fun h => ?_, fun h => ?_, ?_, ?_⟩
  · simp [EMAFilter.filter, h]
  · simp [EMAFilter.filter, h]
  · simp [EMAFilter.reset]
  · simp [EMAFilter.filter, EMAFilter.reset]

/-- C3 witness: a seeded filter with α = 1/2 and estimate 3 maps sample 5 to
4, and after `reset()` the same sample comes back verbatim. -/
theorem c3_ema_filter_contract_witness :
    ((⟨1/2, some 3⟩ : EMAFilter).filter 5).1 = 4 ∧
    ((⟨1/2, some 3⟩ : EMAFilter).reset.filter 5).1 = 5 := by
  have h := c3_ema_filter_contract (⟨1/2, some 3⟩ : EMAFilter) 5 3
  constructor
  · rw [h.2.1 rfl]
    norm_num
  · rw [h.2.2.2]

/-! ## Claim C4: tracking lifecycle grace window -/

/-- Helper: the transition taken by an absence report after a presence report
at time `t0`, written with the state's fields spelled out. -/
theorem updateTracking_false_after_seen (st : HandTrackingState) (t0 t1 : ℚ) :
    (st.updateTracking true t0).2.updateTracking false t1 =
      if t1 - t0 < st.gracePeriod then
        (⟨"grace", t1 - t0⟩,
         { st with isTracking := true, lastSeenTime := t0, transitioningOut := true })
      else
        (⟨"lost", t1 - t0⟩,
         { st with isTracking := false, lastSeenTime := t0, transitioningOut := false }) := rfl

/-- C4: `updateTracking(true)` reports `tracking` with `timeSinceLost = 0` and
records the presence time; a later `updateTracking(false)` reports `grace`
with the elapsed time while the elapsed time is below `gracePeriod` (in
particular at `gracePeriod − 1`) and reports `lost` (clearing `isTracking`)
once the elapsed time reaches `gracePeriod` (in particular at
`gracePeriod + 1`). -/
theorem c4_tracking_grace_window (st : HandTrackingState) (t0 t1 : ℚ) :
    ((st.updateTracking true t0).1.status = "tracking" ∧
     (st.updateTracking true t0).1.timeSinceLost = 0 ∧
     (st.updateTracking true t0).2.isTracking = true ∧
     (st.updateTracking true t0).2.lastSeenTime = t0) ∧
    (t1 - t0 < st.gracePeriod →
      ((st.updateTracking true t0).2.updateTracking false t1).1.status = "grace" ∧
      ((st.updateTracking true t0).2.updateTracking false t1).1.timeSinceLost = t1 - t0) ∧
    (st.gracePeriod ≤ t1 - t0 →
      ((st.updateTracking true t0).2.updateTracking false t1).1.status = "lost" ∧
      ((st.updateTracking true t0).2.updateTracking false t1).1.timeSinceLost = t1 - t0 ∧
      ((st.updateTracking true t0).2.updateTracking false t1).2.isTracking = false) ∧
    ((st.updateTracking true t0).2.updateTracking false
        (t0 + (st.gracePeriod - 1))).1.status = "grace" ∧
    ((st.updateTracking true t0).2.updateTracking false
        (t0 + (st.gracePeriod + 1))).1.status = "lost" := by
  refine ⟨⟨rfl, rfl, rfl, rfl⟩, fun h => ?_, fun h => ?_, ?_, ?_⟩
  · rw [updateTracking_false_after_seen, if_pos h]
    exact ⟨rfl, rfl⟩
  · rw [updateTracking_false_after_seen, if_neg (not_lt.2 h)]
    exact ⟨rfl, rfl, rfl⟩
  · rw [updateTracking_false_after_seen,
      if_pos (show t0 + (st.gracePeriod - 1) - t0 < st.gracePeriod by linarith)]
  · rw [updateTracking_false_after_seen,
      if_neg (show ¬ t0 + (st.gracePeriod + 1) - t0 < st.gracePeriod by
        rw [not_lt]; linarith)]

/-- C4 witness: with grace period 500, presence at time 0, absence at 499 is
`grace` and absence at 501 is `lost`. -/
theorem c4_tracking_grace_window_witness :
    (((⟨false, 0, 500, false⟩ : HandTrackingState).updateTracking true 0).2.updateTracking
        false 499).1.status = "grace" ∧
    (((⟨false, 0, 500, false⟩ : HandTrackingState).updateTracking true 0).2.updateTracking
        false 501).1.status = "lost" := by
  constructor
  · exact ((c4_tracking_grace_window (⟨false, 0, 500, false⟩ : HandTrackingState) 0 499).2.1
      (by norm_num)).1
  · exact ((c4_tracking_grace_window (⟨false, 0, 500, false⟩ : HandTrackingState) 0 501).2.2.1
      (by norm_num)).1

/-! ## Claims C5 and C6: single-hand frame routing -/

/-- A concrete fist: every fingertip sits on the wrist while the MCPs sit at
planar distance 1/2 from it, so all four fingers count as closed. -/
def fistHand : Hand := fun i =>
  if i = 5 ∨ i = 9 ∨ i = 13 ∨ i = 17 then ⟨3/10, 2/5, 0⟩
  else ⟨0, 0, 0⟩

/-- A concrete open hand: fingertips at planar distance 2 from the wrist,
MCPs at distance 1/2, thumb tip at planar distance 1/5 from the index tip. -/
def openHand : Hand := fun i =>
  if i = 5 ∨ i = 9 ∨ i = 13 ∨ i = 17 then ⟨3/10, 2/5, 0⟩
  else if i = 8 ∨ i = 12 ∨ i = 16 ∨ i = 20 then ⟨6/5, 8/5, 0⟩
  else if i = 4 then ⟨1, 8/5, 0⟩
  else ⟨0, 0, 0⟩

/-- C5: a one-hand frame whose hand is a fist leaves every spring (target and
accepted-target reference included) and every filter estimate unchanged, in
every gesture mode. -/
theorem c5_fist_override_targets_noop (atan2 : ℚ → ℚ → ℚ) (st : ParticleController)
    (hand : Hand) (hfist : GestureDetection.isFist hand = true) :
    (st.processSingleHandGestures atan2 hand).smoothScale = st.smoothScale ∧
    (st.processSingleHandGestures atan2 hand).smoothRotationX = st.smoothRotationX ∧
    (st.processSingleHandGestures atan2 hand).smoothRotationY = st.smoothRotationY ∧
    (st.processSingleHandGestures atan2 hand).scaleFilter = st.scaleFilter ∧
    (st.processSingleHandGestures atan2 hand).rotXFilter = st.rotXFilter ∧
    (st.processSingleHandGestures atan2 hand).rotYFilter = st.rotYFilter ∧
    (st.processSingleHandGestures atan2 hand).pinchFilter = st.pinchFilter := by
  simp [ParticleController.processSingleHandGestures, hfist]

/-- C5 witness: the concrete fist is recognized and its frame leaves the
scale spring of the freshly initialized controller unchanged. -/
theorem c5_fist_override_targets_noop_witness :
    GestureDetection.isFist fistHand = true ∧
    ((ParticleController.init CONFIG).processSingleHandGestures (fun _ _ => 0)
        fistHand).smoothScale = (ParticleController.init CONFIG).smoothScale := by
  have hf : GestureDetection.isFist fistHand = true := by
    norm_num [GestureDetection.isFist, GestureDetection.fingerClosed, fistHand,
      ratSqrt, natSqrt, natSqrtAux, List.filter]
  exact ⟨hf, (c5_fist_override_targets_noop (fun _ _ => 0)
    (ParticleController.init CONFIG) fistHand hf).1⟩

/-- C6: on a one-hand non-fist frame, mode `scale` routes a `setTarget` call
to the scale spring only (rotation springs, rotation filters, auto-rotate all
untouched), and mode `rotate` routes `setTarget` calls to the two rotation
springs only (scale spring and its filters untouched). -/
theorem c6_mode_gating (atan2 : ℚ → ℚ → ℚ) (st : ParticleController) (hand : Hand)
    (hfist : GestureDetection.isFist hand = false) :
    (st.gestureMode = "scale" →
      ∃ v f, st.processSingleHandGestures atan2 hand =
        { st with smoothScale := st.smoothScale.setTarget v, pinchFilter := f }) ∧
    (st.gestureMode = "rotate" →
      ∃ vx vy fx fy, st.processSingleHandGestures atan2 hand =
        { st with
          smoothRotationX := st.smoothRotationX.setTarget vx
          smoothRotationY := st.smoothRotationY.setTarget vy
          rotXFilter := fx
          rotYFilter := fy
          autoRotate := false }) := by
  have hsr : ("scale" : String) ≠ "rotate" := by decide
  have hsb : ("scale" : String) ≠ "both" := by decide
  have hrs : ("rotate" : String) ≠ "scale" := by decide
  have hrb : ("rotate" : String) ≠ "both" := by decide
  constructor
  · intro hmode
    refine ⟨min (max (0.3 + (st.pinchFilter.filter
        (GestureDetection.getPinchDistance hand)).1 * 8) 0.2) 2.5,
      (st.pinchFilter.filter (GestureDetection.getPinchDistance hand)).2, ?_⟩
    simp [ParticleController.processSingleHandGestures, hfist, hmode, hsr, hsb]
  · intro hmode
    refine ⟨(st.rotXFilter.filter
        ((GestureDetection.getHandOrientation atan2 hand).tiltX * 1.2)).1,
      (st.rotYFilter.filter
        ((GestureDetection.getHandOrientation atan2 hand).tiltY * 0.8)).1,
      (st.rotXFilter.filter
        ((GestureDetection.getHandOrientation atan2 hand).tiltX * 1.2)).2,
      (st.rotYFilter.filter
        ((GestureDetection.getHandOrientation atan2 hand).tiltY * 0.8)).2, ?_⟩
    simp [ParticleController.processSingleHandGestures, hfist, hmode, hrs, hrb]

/-- C6 witness: the concrete open hand is not a fist, and in mode `scale` its
frame leaves the rotation springs of the controller unchanged while the scale
spring receives a `setTarget` call. -/
theorem c6_mode_gating_witness :
    GestureDetection.isFist openHand = false ∧
    (∃ v f, ({ ParticleController.init CONFIG with gestureMode := "scale" }
        : ParticleController).processSingleHandGestures (fun _ _ => 0) openHand =
      { ({ ParticleController.init CONFIG with gestureMode := "scale" }
          : ParticleController) with
        smoothScale := ({ ParticleController.init CONFIG with gestureMode := "scale" }
          : ParticleController).smoothScale.setTarget v
        pinchFilter := f }) := by
  have hf : GestureDetection.isFist openHand = false := by
    norm_num [GestureDetection.isFist, GestureDetection.fingerClosed, openHand,
      ratSqrt, natSqrt, natSqrtAux, List.filter]
  exact ⟨hf, (c6_mode_gating (fun _ _ => 0)
    { ParticleController.init CONFIG with gestureMode := "scale" } openHand hf).1 rfl⟩

/-! ## Claim C7: end-to-end two-hand scale routing -/

/-- A hand whose wrist (and every other landmark) sits at `(0.3, 0.5)`. -/
def handA : Hand := fun _ => ⟨3/10, 1/2, 0⟩

/-- A hand whose wrist (and every other landmark) sits at `(0.7, 0.5)`. -/
def handB : Hand := fun _ => ⟨7/10, 1/2, 0⟩

/-- C7: with wrists at `(0.3, 0.5)` and `(0.7, 0.5)` the two-hand distance is
`0.4`, and with the scale filter's α = 1 a routed two-hand frame on the fresh
controller sets the scale spring target to exactly
`0.3 + 0.4·3.5 = 1.7` (the clamp to `[0.2, 2.8]` leaves it alone). -/
theorem c7_two_hand_scale_routing :
    GestureDetection.getTwoHandDistance handA handB = 2/5 ∧
    (ParticleController.onHandsResults (fun _ _ => 0)
        { ParticleController.init CONFIG with scaleFilter := ⟨1, none⟩ }
        [handA, handB] 0).smoothScale.target = 17/10 := by
  have hdist : GestureDetection.getTwoHandDistance handA handB = 2/5 := by
    norm_num [GestureDetection.getTwoHandDistance, handA, handB, ratSqrt, natSqrt, natSqrtAux]
  refine ⟨hdist, ?_⟩
  norm_num [ParticleController.onHandsResults, ParticleController.processGestures,
    ParticleController.processTwoHandGestures, ParticleController.init, CONFIG,
    HandTrackingState.updateTracking, hdist, EMAFilter.filter, SmoothValue.setTarget,
    SmoothValue.init, GestureDetection.getTwoHandRotation, handA, handB,
    min_def, max_def, abs_of_pos]

/-! ## Claim C8: filter reset on extended loss -/

/-- C8: a lost frame with `timeSinceLost` beyond `gracePeriod + 500` resets
all four exponential filters to uninitialized (so each filter's next sample
comes back verbatim); a lost frame at or below that bound leaves every
filter estimate untouched. -/
theorem c8_filter_reset_on_extended_loss (st : ParticleController) (t x : ℚ) :
    (t > st.config.gracePeriod + 500 →
      (st.handleNoHands t).scaleFilter.value = none ∧
      (st.handleNoHands t).rotXFilter.value = none ∧
      (st.handleNoHands t).rotYFilter.value = none ∧
      (st.handleNoHands t).pinchFilter.value = none ∧
      ((st.handleNoHands t).scaleFilter.filter x).1 = x ∧
      ((st.handleNoHands t).rotXFilter.filter x).1 = x ∧
      ((st.handleNoHands t).rotYFilter.filter x).1 = x ∧
      ((st.handleNoHands t).pinchFilter.filter x).1 = x) ∧
    (t ≤ st.config.gracePeriod + 500 →
      (st.handleNoHands t).scaleFilter = st.scaleFilter ∧
      (st.handleNoHands t).rotXFilter = st.rotXFilter ∧
      (st.handleNoHands t).rotYFilter = st.rotYFilter ∧
      (st.handleNoHands t).pinchFilter = st.pinchFilter) := by
  constructor
  · intro h
    simp [ParticleController.handleNoHands, h, EMAFilter.reset, EMAFilter.filter]
  · intro h
    simp [ParticleController.handleNoHands, not_lt.2 h]

/-- C8 witness: with the configured grace period 500, a lost frame at 1001
resets the scale filter (its next sample 3/7 comes back verbatim) while a
lost frame at 1000 leaves the pinch filter untouched. -/
theorem c8_filter_reset_on_extended_loss_witness :
    ((ParticleController.init CONFIG).handleNoHands 1001).scaleFilter.value = none ∧
    (((ParticleController.init CONFIG).handleNoHands 1001).scaleFilter.filter (3/7)).1 = 3/7 ∧
    ((ParticleController.init CONFIG).handleNoHands 1000).pinchFilter =
      (ParticleController.init CONFIG).pinchFilter := by
  have h1 := (c8_filter_reset_on_extended_loss (ParticleController.init CONFIG) 1001 (3/7)).1
    (by norm_num [ParticleController.init, CONFIG])
  have h2 := (c8_filter_reset_on_extended_loss (ParticleController.init CONFIG) 1000 (3/7)).2
    (by norm_num [ParticleController.init, CONFIG])
  exact ⟨h1.1, h1.2.2.2.2.1, h2.2.2.2⟩

/-! ## Claim C9: auto-rotate tick behavior -/

/-- Helper: on a tick whose tracking status is `lost` (grace period elapsed)
with auto-rotate enabled, the Y rotation target becomes the advanced base
angle, the X rotation target becomes the sinusoidal oscillation, and the
base angle advances by the configured speed. -/
theorem animate_lost_auto_fields (sin : ℚ → ℚ) (c : ParticleController) (now : ℚ)
    (hauto : c.autoRotate = true)
    (hlost : c.handState.gracePeriod ≤ now - c.handState.lastSeenTime) :
    (ParticleController.animate sin c now).1.smoothRotationY.target
        = c.baseRotationY + c.config.autoRotateSpeed ∧
    (ParticleController.animate sin c now).1.smoothRotationX.target
        = sin (now * 0.001 * c.config.oscFrequency) * c.config.oscAmplitude ∧
    (ParticleController.animate sin c now).1.baseRotationY
        = c.baseRotationY + c.config.autoRotateSpeed := by
  have hnlt : ¬ (now - c.handState.lastSeenTime < c.handState.gracePeriod) := not_lt.2 hlost
  simp [ParticleController.animate, HandTrackingState.updateTracking, hnlt, hauto,
    SmoothValue.update]

/-- C9: over any run of ticks that all see status `lost` with auto-rotate
enabled, the Y rotation target after `n+1` ticks is the starting base angle
plus `(n+1)` speed increments, consecutive ticks increase it by exactly the
configured speed (strictly, since the speed is positive), and every tick's X
rotation target stays inside `[−amplitude, amplitude]`. -/
theorem c9_auto_rotate_ticks (sin : ℚ → ℚ) (times : ℕ → ℚ) (st : ParticleController)
    (hsin : ∀ t, |sin t| ≤ 1) (hauto : st.autoRotate = true)
    (hlost : ∀ n, st.handState.gracePeriod ≤ times n - st.handState.lastSeenTime)
    (hamp : 0 ≤ st.config.oscAmplitude) (hspeed : 0 < st.config.autoRotateSpeed) (n : ℕ) :
    (ParticleController.animateIter sin times st (n+1)).smoothRotationY.target
        = st.baseRotationY + ((n : ℚ) + 1) * st.config.autoRotateSpeed ∧
    (ParticleController.animateIter sin times st (n+2)).smoothRotationY.target
        = (ParticleController.animateIter sin times st (n+1)).smoothRotationY.target
            + st.config.autoRotateSpeed ∧
    (ParticleController.animateIter sin times st (n+1)).smoothRotationY.target
        < (ParticleController.animateIter sin times st (n+2)).smoothRotationY.target ∧
    |(ParticleController.animateIter sin times st (n+1)).smoothRotationX.target|
        ≤ st.config.oscAmplitude := by
  have inv : ∀ m,
      (ParticleController.animateIter sin times st m).autoRotate = true ∧
      (ParticleController.animateIter sin times st m).config = st.config ∧
      (ParticleController.animateIter sin times st m).handState.lastSeenTime
          = st.handState.lastSeenTime ∧
      (ParticleController.animateIter sin times st m).handState.gracePeriod
          = st.handState.gracePeriod ∧
      (ParticleController.animateIter sin times st m).baseRotationY
          = st.baseRotationY + (m : ℚ) * st.config.autoRotateSpeed := by
    intro m
    induction m with
    | zero =>
        refine ⟨hauto, rfl, rfl, rfl, ?_⟩
        simp [ParticleController.animateIter]
    | succ k ih =>
        have hpres := animate_preserves_refs sin
          (ParticleController.animateIter sin times st k) (times k)
        have hlost' : (ParticleController.animateIter sin times st k).handState.gracePeriod
            ≤ times k - (ParticleController.animateIter sin times st k).handState.lastSeenTime := by
          rw [ih.2.2.2.1, ih.2.2.1]
          exact hlost k
        have hfields := animate_lost_auto_fields sin
          (ParticleController.animateIter sin times st k) (times k) ih.1 hlost'
        refine ⟨?_, ?_, ?_, ?_, ?_⟩
        · rw [ParticleController.animateIter, hpres.1]
          exact ih.1
        · rw [ParticleController.animateIter, hpres.2.1]
          exact ih.2.1
        · rw [ParticleController.animateIter, hpres.2.2.1]
          exact ih.2.2.1
        · rw [ParticleController.animateIter, hpres.2.2.2.1]
          exact ih.2.2.2.1
        · rw [ParticleController.animateIter, hfields.2.2, ih.2.2.2.2, ih.2.1]
          push_cast
          ring
  have step : ∀ m,
      (ParticleController.animateIter sin times st (m+1)).smoothRotationY.target
          = st.baseRotationY + ((m : ℚ) + 1) * st.config.autoRotateSpeed ∧
      |(ParticleController.animateIter sin times st (m+1)).smoothRotationX.target|
          ≤ st.config.oscAmplitude := by
    intro m
    have hlost' : (ParticleController.animateIter sin times st m).handState.gracePeriod
        ≤ times m - (ParticleController.animateIter sin times st m).handState.lastSeenTime := by
      rw [(inv m).2.2.2.1, (inv m).2.2.1]
      exact hlost m
    have hfields := animate_lost_auto_fields sin
      (ParticleController.animateIter sin times st m) (times m) (inv m).1 hlost'
    constructor
    · rw [ParticleController.animateIter, hfields.1, (inv m).2.2.2.2, (inv m).2.1]
      ring
    · rw [ParticleController.animateIter, hfields.2.1, (inv m).2.1, abs_mul,
        abs_of_nonneg hamp]
      exact mul_le_of_le_one_left hamp (hsin _)
  refine ⟨(step n).1, ?_, ?_, (step n).2⟩
  · rw [(step (n+1)).1, (step n).1]
    push_cast
    ring
  · rw [(step (n+1)).1, (step n).1]
    have : (0 : ℚ) < st.config.autoRotateSpeed := hspeed
    push_cast
    nlinarith [hspeed]

/-- C9 witness: on the fresh controller (auto-rotate on, grace period 500)
with a zero sine stand-in and ticks at times 600, 601, …, the first tick's Y
rotation target is one speed increment and its X target is within the
amplitude bound. -/
theorem c9_auto_rotate_ticks_witness :
    (ParticleController.animateIter (fun _ => 0) (fun k => 600 + (k : ℚ))
        (ParticleController.init CONFIG) 1).smoothRotationY.target = 3/1000 ∧
    |(ParticleController.animateIter (fun _ => 0) (fun k => 600 + (k : ℚ))
        (ParticleController.init CONFIG) 1).smoothRotationX.target| ≤ 2/25 := by
  have h := c9_auto_rotate_ticks (fun _ => 0) (fun k => 600 + (k : ℚ))
    (ParticleController.init CONFIG)
    (fun t => by norm_num)
    rfl
    (fun k => by
      have : (0 : ℚ) ≤ (k : ℚ) := Nat.cast_nonneg k
      show (ParticleController.init CONFIG).handState.gracePeriod
          ≤ 600 + (k : ℚ) - (ParticleController.init CONFIG).handState.lastSeenTime
      norm_num [ParticleController.init, CONFIG]
      linarith)
    (by norm_num [ParticleController.init, CONFIG])
    (by norm_num [ParticleController.init, CONFIG])
    0
  constructor
  · rw [h.1]
    norm_num [ParticleController.init, CONFIG]
  · have hx := h.2.2.2
    have hamp : (ParticleController.init CONFIG).config.oscAmplitude = 2/25 := by
      norm_num [ParticleController.init, CONFIG]
    rw [hamp] at hx
    exact hx

/-! ## Claim C10: fist disables auto-rotation until a lost frame re-enables it -/

/-- C10: a one-hand fist frame sets `autoRotate := false` in every gesture
mode; with auto-rotate off, a `lost` tick advances both rotation springs by
`updateSlow` (targets drift to `0` and the base rotation angle instead of
free-running); and a lost detection frame (`handleNoHands`) re-enables
auto-rotate. -/
theorem c10_fist_disables_auto_rotate (atan2 : ℚ → ℚ → ℚ) (sin : ℚ → ℚ)
    (st c : ParticleController) (hand : Hand) (now t : ℚ)
    (hfist : GestureDetection.isFist hand = true)
    (hauto : c.autoRotate = false)
    (hlost : c.handState.gracePeriod ≤ now - c.handState.lastSeenTime) :
    (st.processSingleHandGestures atan2 hand).autoRotate = false ∧
    (ParticleController.animate sin c now).1.smoothRotationX
        = (c.smoothRotationX.updateSlow 0).2 ∧
    (ParticleController.animate sin c now).1.smoothRotationY
        = (c.smoothRotationY.updateSlow c.baseRotationY).2 ∧
    (ParticleController.animate sin c now).1.smoothRotationX.target = 0 ∧
    (ParticleController.animate sin c now).1.smoothRotationY.target = c.baseRotationY ∧
    (st.handleNoHands t).autoRotate = true := by
  have hnlt : ¬ (now - c.handState.lastSeenTime < c.handState.gracePeriod) := not_lt.2 hlost
  refine ⟨?_, ?_, ?_, ?_, ?_, ?_⟩
  · simp [ParticleController.processSingleHandGestures, hfist]
  · simp [ParticleController.animate, HandTrackingState.updateTracking, hnlt, hauto]
  · simp [ParticleController.animate, HandTrackingState.updateTracking, hnlt, hauto]
  · simp [ParticleController.animate, HandTrackingState.updateTracking, hnlt, hauto,
      SmoothValue.updateSlow]
  · simp [ParticleController.animate, HandTrackingState.updateTracking, hnlt, hauto,
      SmoothValue.updateSlow]
  · simp [ParticleController.handleNoHands]

/-- C10 witness: the concrete fist frame turns auto-rotate off on the fresh
controller (whose mode is `both`), and a lost frame turns it back on. -/
theorem c10_fist_disables_auto_rotate_witness :
    ((ParticleController.init CONFIG).processSingleHandGestures (fun _ _ => 0)
        fistHand).autoRotate = false ∧
    (({ ParticleController.init CONFIG with autoRotate := false }
        : ParticleController).handleNoHands 0).autoRotate = true := by
  have hf : GestureDetection.isFist fistHand = true := by
    norm_num [GestureDetection.isFist, GestureDetection.fingerClosed, fistHand,
      ratSqrt, natSqrt, natSqrtAux, List.filter]
  have h := c10_fist_disables_auto_rotate (fun _ _ => 0) (fun _ => 0)
    (ParticleController.init CONFIG)
    { ParticleController.init CONFIG with autoRotate := false }
    fistHand 600 0 hf rfl
    (by norm_num [ParticleController.init, CONFIG])
  exact ⟨h.1, h.2.2.2.2.2⟩
